import Mathlib

/-!
Verification of the control-algorithm layer of RLLib (src/ControlAlgorithm.h).

The learners are shallowly embedded: scalar doubles become rationals (`ℚ`),
except where IEEE special values matter, where the type `D` (a rational, NaN,
or a signed infinity) is used; sparse vectors become `List ℚ`; the collaborator
objects the learners compose against (policies, TD predictors, projectors,
traces) are either passed in as plain functions or, where their behaviour is
fixed by the specification but their code is outside this file's source,
modelled from the spec (each such definition says so in its doc comment).
-/

namespace RLLib

/-- A sparse feature or weight vector over a fixed-dimension space. -/
abbrev Vec := List ℚ

/-- `SparseVector::addToSelf(factor, that)`: `self := self + factor * that`,
pointwise. -/
def addToSelf (factor : ℚ) (that self : Vec) : Vec :=
  List.zipWith (fun s x => s + factor * x) self that

/-- `SparseVector::multiplyToSelf(factor)`: `self := factor * self`, pointwise. -/
def multiplyToSelf (factor : ℚ) (self : Vec) : Vec :=
  self.map (fun s => factor * s)

/-- `SparseVector::dot(that)`: the dot product of two vectors. -/
def dot (x y : Vec) : ℚ :=
  (List.zipWith (fun a b => a * b) x y).sum

/-- The zero vector of dimension `n` (a fresh or cleared sparse vector). -/
def zeroVec (n : ℕ) : Vec := List.replicate n 0

/-- Pointwise sum of two vectors. -/
def vadd (x y : Vec) : Vec := List.zipWith (fun a b => a + b) x y

/-- A discrete action, identified by its id (`Action::id()`). -/
structure Action where
  id : ℕ
deriving DecidableEq

/-- A double-precision value as the off-policy paths can produce it: an exact
finite value, NaN, or a signed infinity. -/
inductive D where
  | fin : ℚ → D
  | nan : D
  | posInf : D
  | negInf : D
deriving DecidableEq

/-- IEEE division of two finite doubles, as `target->pi(a) / behavior->pi(a)`
performs it: division by zero yields NaN for 0/0 and a signed infinity
otherwise. -/
def ddiv (a b : ℚ) : D :=
  if b = 0 then
    if a = 0 then D.nan
    else if 0 < a then D.posInf
    else D.negInf
  else D.fin (a / b)

/-- The two numeric-validity faults an off-policy step can signal. -/
inductive Fault where
  | rhoUnbounded
  | deltaUnbounded
deriving DecidableEq

/-- Modelled from the spec: `Boundedness::checkValue` (its code lives outside
`src/ControlAlgorithm.h`) accepts a value exactly when it is neither NaN nor
infinite nor negative; the importance ratio and the TD error "must be rejected
(failure signaled)" otherwise. -/
def Boundedness.checkValue : D → Bool
  | D.fin q => decide (0 ≤ q)
  | _ => false

/-! ## GreedyGQ and GQOnPolicyControl (lines 157–274) -/

/-- The state a `GreedyGQ<T, O>` instance owns: the cached importance ratio,
the probability caches of the target and behavior policies, the gradient-Q
predictor's state (abstract, of type `κ`), and the two scratch vectors. -/
structure GreedyGQState (κ : Type) where
  rho_t : D
  targetPi : Action → ℚ
  behaviorPi : Action → ℚ
  gq : κ
  phi_t : Vec
  phi_bar_tp1 : Vec

/-- `GreedyGQ::computeRho(a_t)`: `target->pi(a_t) / behavior->pi(a_t)`. -/
def GreedyGQ.computeRho {κ : Type} (s : GreedyGQState κ) (a_t : Action) : D :=
  ddiv (s.targetPi a_t) (s.behaviorPi a_t)

/-- `GQOnPolicyControl::computeRho(a_t)`: `return 1.0;` — the state and the
action are ignored. -/
def GQOnPolicyControl.computeRho {κ : Type} (s : GreedyGQState κ) (a_t : Action) : D :=
  D.fin 1

/-- `GreedyGQ::step` (lines 202–225): computes `rho_t`, rebuilds the
target-policy-weighted expectation vector `phi_bar_tp1` over the next state's
representations (`xasNext`, with the refreshed target probabilities
`targetPiNext`), skipping zero-probability actions, hands `rho_t` to
`gq->update` (abstract `gqUpdate`), caches the next sampled action's features
in `phi_t`, and returns.  There is no failure path: the result is always
`Except.ok`. -/
def GreedyGQ.step {κ : Type} (gqUpdate : κ → Vec → Vec → D → ℚ → ℚ → κ)
    (s : GreedyGQState κ) (actions : List Action)
    (targetPiNext : Action → ℚ) (xasNext : Action → Vec) (dim : ℕ)
    (a_t a_tp1 : Action) (r_tp1 z_tp1 : ℚ) :
    Except Fault (GreedyGQState κ) :=
  let rho_t := GreedyGQ.computeRho s a_t
  let phiBar := actions.foldl
    (fun acc a => if targetPiNext a = 0 then acc else addToSelf (targetPiNext a) (xasNext a) acc)
    (zeroVec dim)
  Except.ok
    { rho_t := rho_t
      targetPi := targetPiNext
      behaviorPi := s.behaviorPi
      gq := gqUpdate s.gq s.phi_t phiBar rho_t r_tp1 z_tp1
      phi_t := xasNext a_tp1
      phi_bar_tp1 := phiBar }

/-! ## OffPAC (lines 377–468) -/

/-- The state an `OffPAC<T, O>` instance owns: the cached scalars, an abstract
critic state `κ`, an abstract actor state `α`, and the two scratch vectors. -/
structure OffPACState (κ α : Type) where
  rho_t : D
  delta_t : D
  critic : κ
  actor : α
  phi_t : Vec
  phi_tp1 : Vec

/-- `OffPAC::step` (lines 414–431): projects both states, computes
`rho_t = actor->pi(a_t) / behavior->pi(a_t)`, checks it with
`Boundedness::checkValue`, obtains `delta_t` from the critic update, checks it
likewise, and only then updates the actor.  A failed check aborts the step. -/
def OffPAC.step {κ α : Type}
    (criticUpdate : κ → Vec → Vec → D → ℚ → ℚ → ℚ → κ × D)
    (actorUpdate : α → Action → D → ℚ → D → α)
    (s : OffPACState κ α) (actorPiA behaviorPiA : ℚ)
    (proj_t proj_tp1 : Vec) (gamma_t : ℚ) (a_t : Action) (r_tp1 z_tp1 : ℚ) :
    Except Fault (OffPACState κ α) :=
  let rho_t := ddiv actorPiA behaviorPiA
  if Boundedness.checkValue rho_t = false then Except.error Fault.rhoUnbounded
  else
    let res := criticUpdate s.critic proj_t proj_tp1 rho_t gamma_t r_tp1 z_tp1
    if Boundedness.checkValue res.2 = false then Except.error Fault.deltaUnbounded
    else Except.ok
      { rho_t := rho_t
        delta_t := res.2
        critic := res.1
        actor := actorUpdate s.actor a_t rho_t gamma_t res.2
        phi_t := proj_t
        phi_tp1 := proj_tp1 }

/-! ## Persistence naming (lines 100–107, 248–255, 320–327, 449–467, 516–523, 687–705) -/

/-- `SarsaControl::persist(f)`: delegates to `sarsa->persist(f)` with the name
unchanged. -/
def SarsaControl.persist (sarsaPersist : String → List String) (f : String) : List String :=
  sarsaPersist f

/-- `SarsaControl::resurrect(f)`: delegates to `sarsa->resurrect(f)`. -/
def SarsaControl.resurrect (sarsaResurrect : String → List String) (f : String) : List String :=
  sarsaResurrect f

/-- `GreedyGQ::persist(f)`: delegates to `gq->persist(f)` with the name
unchanged. -/
def GreedyGQ.persist (gqPersist : String → List String) (f : String) : List String :=
  gqPersist f

/-- `GreedyGQ::resurrect(f)`: delegates to `gq->resurrect(f)`. -/
def GreedyGQ.resurrect (gqResurrect : String → List String) (f : String) : List String :=
  gqResurrect f

/-- `AbstractActorOffPolicy::persist(f)` and `Actor::persist(f)`: a bare actor
persists its parameter vectors `u` directly under `f`. -/
def Actor.persist (uPersist : String → List String) (f : String) : List String :=
  uPersist f

/-- `AbstractActorOffPolicy::resurrect(f)` and `Actor::resurrect(f)`. -/
def Actor.resurrect (uResurrect : String → List String) (f : String) : List String :=
  uResurrect f

/-- `OffPAC::persist(f)` (lines 449–457): the critic persists under
`f + ".critic"` and the actor under `f + ".actor"`. -/
def OffPAC.persist (criticPersist actorPersist : String → List String) (f : String) :
    List String :=
  criticPersist (f ++ ".critic") ++ actorPersist (f ++ ".actor")

/-- `OffPAC::resurrect(f)` (lines 459–467): same derived names. -/
def OffPAC.resurrect (criticResurrect actorResurrect : String → List String) (f : String) :
    List String :=
  criticResurrect (f ++ ".critic") ++ actorResurrect (f ++ ".actor")

/-- `AbstractActorCritic::persist(f)` (lines 687–695): the critic persists
under `f + ".critic"` and the actor under `f + ".actor"`. -/
def AbstractActorCritic.persist (criticPersist actorPersist : String → List String)
    (f : String) : List String :=
  criticPersist (f ++ ".critic") ++ actorPersist (f ++ ".actor")

/-- `AbstractActorCritic::resurrect(f)` (lines 697–705): same derived names. -/
def AbstractActorCritic.resurrect (criticResurrect actorResurrect : String → List String)
    (f : String) : List String :=
  criticResurrect (f ++ ".critic") ++ actorResurrect (f ++ ".actor")

/-- A leaf component (a TD predictor or a parameter-vector collection) writes
its whole state under the one name it is given. -/
def leafPersist (f : String) : List String := [f]

/-! ## ExpectedSarsaControl (lines 111–154) -/

/-- The loop of `ExpectedSarsaControl::step` (lines 137–146) that accumulates
`phi_bar_tp1`: each action with nonzero probability contributes
`pi * phi_tp1->at(a)` via `addToSelf`; an action with zero probability is
skipped, and the assertion `(*a)->id() != a_tp1->id()` aborts the step (`none`)
if the skipped action is the sampled next action. -/
def ExpectedSarsaControl.phiBarLoop (piF : Action → ℚ) (phiF : Action → Vec)
    (a_tp1 : Action) : List Action → Vec → Option Vec
  | [], acc => some acc
  | a :: rest, acc =>
    if piF a = 0 then
      if a.id = a_tp1.id then none
      else ExpectedSarsaControl.phiBarLoop piF phiF a_tp1 rest acc
    else ExpectedSarsaControl.phiBarLoop piF phiF a_tp1 rest (addToSelf (piF a) (phiF a) acc)

/-- What an `ExpectedSarsaControl::step` call leaves behind: the Sarsa
predictor's state after its update (abstract, of type `σ`), the cached
current-features vector `xa_t`, and the returned action. -/
structure ESStepResult (σ : Type) where
  sarsa : σ
  xa_t : Vec
  a_tp1 : Action
deriving DecidableEq

/-- `ExpectedSarsaControl::step` (lines 131–152): after the next action
`a_tp1` is sampled, the probability-weighted expectation vector `phi_bar_tp1`
is rebuilt from the next state's representations (`phiF`, probabilities
`piF`), `sarsa->update(xa_t, phi_bar_tp1, r_tp1)` runs (abstract
`sarsaUpdate`), and `xa_t` is set to the sampled action's feature vector. -/
def ExpectedSarsaControl.step {σ : Type} (sarsaUpdate : σ → Vec → Vec → ℚ → σ)
    (actions : List Action) (piF : Action → ℚ) (phiF : Action → Vec) (dim : ℕ)
    (sarsa : σ) (xa_t : Vec) (a_tp1 : Action) (r_tp1 : ℚ) :
    Option (ESStepResult σ) :=
  match ExpectedSarsaControl.phiBarLoop piF phiF a_tp1 actions (zeroVec dim) with
  | none => none
  | some phiBar => some ⟨sarsaUpdate sarsa xa_t phiBar r_tp1, phiF a_tp1, a_tp1⟩

/-- The expectation vector as §8.2 of the spec words it: the sum, over the
actions whose policy probability is nonzero, of `π(s',a) · features(s',a)`. -/
def specExpectation (actions : List Action) (piF : Action → ℚ) (phiF : Action → Vec)
    (dim : ℕ) : Vec :=
  (actions.filter (fun a => piF a ≠ 0)).foldr
    (fun a acc => vadd (multiplyToSelf (piF a) (phiF a)) acc) (zeroVec dim)

/-! ## Eligibility traces and the actor family (lines 276–613) -/

/-- Modelled from the spec: `Traces::clear` / `SparseVectors::clear` (their
code lives outside `src/ControlAlgorithm.h`) set every held vector to zero —
traces are "Cleared at `initialize`/`reset`" and `reset` "clears all learned
parameters and traces". -/
def Traces.clear (vs : List Vec) : List Vec :=
  vs.map (fun v => zeroVec v.length)

/-- Modelled from the spec: `Trace::update(tau, phi)` (its code lives outside
`src/ControlAlgorithm.h`) decays the trace by `tau`, then adds `phi` — the
"trace decays by `γ·λ`, then gets the gradient-of-log added". -/
def Trace.update (tau : ℚ) (phi self : Vec) : Vec :=
  vadd (multiplyToSelf tau self) phi

/-- The state an `ActorLambda<T, O>` instance owns (through `Actor`):
the initialization flag, the step size, `γ`, `λ`, the policy parameter blocks
`u`, and the trace blocks `e`. -/
structure ALState where
  initialized : Bool
  alpha_u : ℚ
  gamma : ℚ
  lambda : ℚ
  u : List Vec
  e : List Vec

/-- `ActorLambda::ActorLambda` (lines 536–541): stores the injected pieces and
asserts `e->dimension() == u->dimension()`; a mismatch is a fatal precondition
failure (`none`). The flag starts false (`Actor::Actor`, line 480). -/
def ActorLambda.construct (alpha_u gamma lambda : ℚ) (u e : List Vec) : Option ALState :=
  if e.length = u.length then
    some { initialized := false, alpha_u := alpha_u, gamma := gamma, lambda := lambda,
           u := u, e := e }
  else none

/-- `ActorLambda::initialize` (lines 543–547): sets the flag and clears the
traces. -/
def ActorLambda.initializeState (s : ALState) : ALState :=
  { s with initialized := true, e := Traces.clear s.e }

/-- `ActorLambda::reset` (lines 549–553): `Actor::reset` clears `u` and drops
the flag, then the traces are cleared. -/
def ActorLambda.reset (s : ALState) : ALState :=
  { s with initialized := false, u := Traces.clear s.u, e := Traces.clear s.e }

/-- `ActorLambda::update` (lines 555–564): asserts the flag, then for each
block `i` decays the trace by `γ·λ`, adds `gradLog[i]`, and moves `u_i` by
`α_u · delta` along the new trace. -/
def ActorLambda.update (s : ALState) (gradLog : List Vec) (delta : ℚ) : Option ALState :=
  if s.initialized = false then none
  else
    let e' := List.zipWith (fun ei gi => Trace.update (s.gamma * s.lambda) gi ei) s.e gradLog
    let u' := List.zipWith (fun ui ei => addToSelf (s.alpha_u * delta) ei ui) s.u e'
    some { s with e := e', u := u' }

/-- The state an `ActorLambdaOffPolicy<T, O>` instance owns (through
`AbstractActorOffPolicy`): the initialization flag, the step size, the stored
`γ_t` and `λ`, the policy parameter blocks `u`, and the trace blocks `e`. -/
structure ALOPState where
  initialized : Bool
  alpha_u : ℚ
  gamma_t : ℚ
  lambda : ℚ
  u : List Vec
  e : List Vec

/-- `ActorLambdaOffPolicy::ActorLambdaOffPolicy` (lines 339–344): stores the
injected pieces; unlike `ActorLambda`, no dimension assertion is made, so
construction always succeeds.  The flag starts false
(`AbstractActorOffPolicy::AbstractActorOffPolicy`, line 284). -/
def ActorLambdaOffPolicy.construct (alpha_u gamma_t lambda : ℚ) (u e : List Vec) :
    Option ALOPState :=
  some { initialized := false, alpha_u := alpha_u, gamma_t := gamma_t, lambda := lambda,
         u := u, e := e }

/-- `ActorLambdaOffPolicy::initialize` (lines 351–355): sets the flag
(`AbstractActorOffPolicy::initialize`) and clears the traces. -/
def ActorLambdaOffPolicy.initializeState (s : ALOPState) : ALOPState :=
  { s with initialized := true, e := Traces.clear s.e }

/-- `ActorLambdaOffPolicy::reset` (lines 370–374):
`AbstractActorOffPolicy::reset` clears `u` and drops the flag, then the traces
are cleared. -/
def ActorLambdaOffPolicy.reset (s : ALOPState) : ALOPState :=
  { s with initialized := false, u := Traces.clear s.u, e := Traces.clear s.e }

/-- `ActorLambdaOffPolicy::update` (lines 357–368): asserts the flag, then for
each block `i` the trace is decayed by `γ_t·λ` (the `gamma_t` argument shadows
the member), `gradLog[i]` is added, the trace is scaled by `ρ_t` in place, and
`u_i` moves by `α_u · delta_t` along the new trace. -/
def ActorLambdaOffPolicy.update (s : ALOPState) (gradLog : List Vec)
    (rho_t gamma_t delta_t : ℚ) : Option ALOPState :=
  if s.initialized = false then none
  else
    let e' := List.zipWith
      (fun ei gi => multiplyToSelf rho_t (Trace.update (gamma_t * s.lambda) gi ei)) s.e gradLog
    let u' := List.zipWith (fun ui ei => addToSelf (s.alpha_u * delta_t) ei ui) s.u e'
    some { s with e := e', u := u' }

/-- The state an `ActorNatural<T, O>` instance owns (through `Actor`): the
initialization flag, the two step sizes, the policy parameter blocks `u`, and
the advantage-weight blocks `w`. -/
structure ANState where
  initialized : Bool
  alpha_u : ℚ
  alpha_v : ℚ
  u : List Vec
  w : List Vec

/-- The advantage-function estimate of `ActorNatural::update` (lines 594–597):
the sum over the parameter blocks of `gradLog[i]->dot(w->at(i))`. -/
def advantageValue (gradLog w : List Vec) : ℚ :=
  (List.zipWith dot gradLog w).sum

/-- `ActorNatural::update` (lines 590–605): asserts the flag, computes the
advantage estimate from the old `w`, then for each block `i` moves `w_i` by
`α_v · (delta − advantage)` along `gradLog[i]` and moves `u_i` by `α_u` along
the updated `w_i`. -/
def ActorNatural.update (s : ANState) (gradLog : List Vec) (delta : ℚ) : Option ANState :=
  if s.initialized = false then none
  else
    let adv := advantageValue gradLog s.w
    let w' := List.zipWith (fun wi gi => addToSelf (s.alpha_v * (delta - adv)) gi wi) s.w gradLog
    let u' := List.zipWith (fun ui wi => addToSelf s.alpha_u wi ui) s.u w'
    some { s with w := w', u := u' }

/-! ## Actor-critic compositions (lines 615–774) -/

/-- `ActorCritic::updateCritic` (lines 730–737): projects both states and
calls the on-policy TD predictor's update (abstract `criticUpdate`, returning
its new state and the TD error) with the raw reward. -/
def ActorCritic.updateCritic {κ : Type} (criticUpdate : κ → Vec → Vec → ℚ → κ × ℚ)
    (critic : κ) (phi_t phi_tp1 : Vec) (r_tp1 : ℚ) : κ × ℚ :=
  criticUpdate critic phi_t phi_tp1 r_tp1

/-- The state an `AverageRewardActorCritic<T, O>` instance adds: the baseline
step size `α_r`, the running `averageReward` (0 at construction, line 752),
and the critic's state. -/
structure ARACState (κ : Type) where
  alpha_r : ℚ
  averageReward : ℚ
  critic : κ

/-- `AverageRewardActorCritic::updateCritic` (lines 764–773): the critic is
updated with `r_tp1 - averageReward`, then `averageReward` moves by
`α_r · delta_t`, and `delta_t` is returned. -/
def AverageRewardActorCritic.updateCritic {κ : Type}
    (criticUpdate : κ → Vec → Vec → ℚ → κ × ℚ) (s : ARACState κ)
    (phi_t phi_tp1 : Vec) (r_tp1 : ℚ) : ARACState κ × ℚ :=
  let res := criticUpdate s.critic phi_t phi_tp1 (r_tp1 - s.averageReward)
  ({ alpha_r := s.alpha_r, averageReward := s.averageReward + s.alpha_r * res.2,
     critic := res.1 }, res.2)

/-- `AbstractActorCritic::step` (lines 671–680): the template method shared by
`ActorCritic` and `AverageRewardActorCritic` — first the (variant-specific)
critic update producing `delta_t`, then the actor update driven by exactly
that `delta_t`. -/
def AbstractActorCritic.step {σ α : Type} (updateCritic : σ → ℚ → σ × ℚ)
    (updateActor : α → ℚ → α) (cs : σ) (act : α) (r_tp1 : ℚ) : σ × α :=
  let res := updateCritic cs r_tp1
  (res.1, updateActor act res.2)

/-- A vector is zero when every entry is zero. -/
def isZeroVec (v : Vec) : Bool :=
  v.all fun x => decide (x = 0)

/-- A concrete `GreedyGQ` learner whose behavior policy assigns probability 0
to the executed action while the target policy assigns it probability 1, so
`computeRho` divides by zero; the gradient-Q state (type `D`) records the
ratio the step hands to `gq->update`. -/
def greedyGQcx : GreedyGQState D :=
  { rho_t := D.fin 0, targetPi := fun _ => 1, behaviorPi := fun _ => 0,
    gq := D.fin 0, phi_t := [1], phi_bar_tp1 := [0] }

/-- A concrete initialized `ActorLambdaOffPolicy` state with one parameter
block. -/
def alopWitnessState : ALOPState :=
  { initialized := true, alpha_u := 1, gamma_t := 1, lambda := 1, u := [[2]], e := [[1]] }

/-- A concrete initialized `ActorNatural` state with one parameter block. -/
def anWitnessState : ANState :=
  { initialized := true, alpha_u := 1, alpha_v := 1, u := [[2]], w := [[1]] }

/-- A concrete two-action set for the Expected-Sarsa witnesses. -/
def esWitActions : List Action := [⟨0⟩, ⟨1⟩]

/-- A concrete acting policy: action 0 has probability 1, action 1 has
probability 0. -/
def esWitPi : Action → ℚ := fun a => if a.id = 0 then 1 else 0

/-- Concrete next-state features: every action's feature vector is `[2]`. -/
def esWitPhi : Action → Vec := fun _ => [2]

/-- A concrete Sarsa-predictor update that records the second feature-vector
argument it is handed. -/
def esWitUpd : Vec → Vec → Vec → ℚ → Vec := fun _ _ v _ => v

/-- A one-action set whose only action has probability zero under
`esWitPi`. -/
def esWitActionsB : List Action := [⟨1⟩]

/-- A concrete OffPAC critic: its update leaves the state alone and reports a
TD error of 1. -/
def offPacWitCu : Unit → Vec → Vec → D → ℚ → ℚ → ℚ → Unit × D :=
  fun _ _ _ _ _ _ _ => ((), D.fin 1)

/-- A concrete OffPAC actor update that leaves the actor state alone. -/
def offPacWitAu : Unit → Action → D → ℚ → D → Unit :=
  fun _ _ _ _ _ => ()

/-- A concrete OffPAC learner state over trivial critic and actor states. -/
def offPacWitState : OffPACState Unit Unit :=
  { rho_t := D.fin 0, delta_t := D.fin 0, critic := (), actor := (),
    phi_t := [], phi_tp1 := [] }

/-! ## Vector lemmas -/

lemma length_multiplyToSelf (c : ℚ) (v : Vec) : (multiplyToSelf c v).length = v.length := by
  simp [multiplyToSelf]

lemma length_addToSelf (f : ℚ) (t s : Vec) :
    (addToSelf f t s).length = min s.length t.length := by
  simp [addToSelf]

lemma addToSelf_eq_vadd (f : ℚ) (t s : Vec) :
    addToSelf f t s = vadd s (multiplyToSelf f t) := by
  simp [addToSelf, vadd, multiplyToSelf, List.zipWith_map_right]

lemma vadd_zero_right (v : Vec) (n : ℕ) (h : v.length = n) : vadd v (zeroVec n) = v := by
  subst h
  induction v with
  | nil => rfl
  | cons a v ih => simpa [vadd, zeroVec, List.replicate] using ih

lemma vadd_zero_left (v : Vec) (n : ℕ) (h : v.length = n) : vadd (zeroVec n) v = v := by
  subst h
  induction v with
  | nil => rfl
  | cons a v ih => simpa [vadd, zeroVec, List.replicate] using ih

lemma length_vadd (x y : Vec) : (vadd x y).length = min x.length y.length := by
  simp [vadd]

lemma vadd_assoc (x y z : Vec) : vadd (vadd x y) z = vadd x (vadd y z) := by
  induction x generalizing y z with
  | nil => rfl
  | cons a x ih =>
    cases y with
    | nil => rfl
    | cons b y =>
      cases z with
      | nil => rfl
      | cons c z => simpa [vadd, add_assoc] using ih y z

lemma all_isZeroVec_clear (vs : List Vec) : (Traces.clear vs).all isZeroVec = true := by
  rw [List.all_eq_true]
  intro v hv
  rw [Traces.clear, List.mem_map] at hv
  obtain ⟨w, _, rfl⟩ := hv
  rw [isZeroVec, List.all_eq_true]
  intro x hx
  simpa using List.eq_of_mem_replicate hx

lemma length_specExpectation (actions : List Action) (piF : Action → ℚ)
    (phiF : Action → Vec) (dim : ℕ) (hlen : ∀ a ∈ actions, (phiF a).length = dim) :
    (specExpectation actions piF phiF dim).length = dim := by
  induction actions with
  | nil => simp [specExpectation, zeroVec]
  | cons a rest ih =>
    have hrest := ih (fun x hx => hlen x (List.mem_cons_of_mem a hx))
    have ha : (phiF a).length = dim := hlen a (List.mem_cons_self a rest)
    rw [specExpectation] at hrest ⊢
    rw [List.filter_cons]
    by_cases hpi : piF a = 0
    · simpa [hpi] using hrest
    · have hcond : decide (piF a ≠ 0) = true := by simpa using hpi
      rw [if_pos hcond, List.foldr_cons, length_vadd, length_multiplyToSelf, ha, hrest]
      omega

lemma phiBarLoop_some_eq (piF : Action → ℚ) (phiF : Action → Vec) (b : Action)
    (dim : ℕ) (l : List Action) :
    ∀ acc : Vec, acc.length = dim → (∀ a ∈ l, (phiF a).length = dim) →
      ∀ v, ExpectedSarsaControl.phiBarLoop piF phiF b l acc = some v →
        v = vadd acc (specExpectation l piF phiF dim) := by
  induction l with
  | nil =>
    intro acc hacc _ v h
    rw [ExpectedSarsaControl.phiBarLoop] at h
    cases h
    rw [specExpectation]
    simp [vadd_zero_right acc dim hacc]
  | cons a rest ih =>
    intro acc hacc hlen v h
    rw [ExpectedSarsaControl.phiBarLoop] at h
    by_cases hpi : piF a = 0
    · rw [if_pos hpi] at h
      by_cases hid : a.id = b.id
      · rw [if_pos hid] at h; cases h
      · rw [if_neg hid] at h
        have hv := ih acc hacc (fun x hx => hlen x (List.mem_cons_of_mem a hx)) v h
        rw [hv]
        congr 1
        rw [specExpectation, specExpectation, List.filter_cons]
        simp [hpi]
    · rw [if_neg hpi] at h
      have ha : (phiF a).length = dim := hlen a (List.mem_cons_self a rest)
      have hacc' : (addToSelf (piF a) (phiF a) acc).length = dim := by
        rw [length_addToSelf, hacc, ha]; omega
      have hv := ih _ hacc' (fun x hx => hlen x (List.mem_cons_of_mem a hx)) v h
      rw [hv, addToSelf_eq_vadd, vadd_assoc]
      congr 1
      rw [specExpectation, specExpectation, List.filter_cons]
      simp [hpi, vadd]

lemma phiBarLoop_none_of_mem (piF : Action → ℚ) (phiF : Action → Vec) (b : Action)
    (l : List Action) :
    ∀ a, a ∈ l → piF a = 0 → a.id = b.id →
      ∀ acc, ExpectedSarsaControl.phiBarLoop piF phiF b l acc = none := by
  induction l with
  | nil => intro a ha; cases ha
  | cons c rest ih =>
    intro a ha h0 hid acc
    rw [ExpectedSarsaControl.phiBarLoop]
    rcases List.mem_cons.mp ha with rfl | hmem
    · rw [if_pos h0, if_pos hid]
    · by_cases hpi : piF c = 0
      · rw [if_pos hpi]
        by_cases hcid : c.id = b.id
        · rw [if_pos hcid]
        · rw [if_neg hcid]
          exact ih a hmem h0 hid acc
      · rw [if_neg hpi]
        exact ih a hmem h0 hid _

/-! ## The claims -/

/-- C2: for every `GQOnPolicyControl` instance, `computeRho(a)` returns
exactly 1.0 for every action `a` and every state of the learner. -/
theorem gqOnPolicy_computeRho_one :
    ∀ (κ : Type) (s : GreedyGQState κ) (a : Action),
      GQOnPolicyControl.computeRho s a = D.fin 1 :=
  fun _ _ _ => rfl

/-- C3: in `ExpectedSarsaControl::step` the vector handed to the Sarsa
predictor's update equals the sum over the actions with nonzero policy
probability of `π(s',a)` times that action's next-state feature vector, and a
sampled next action of zero probability makes the step fail the assertion
rather than complete. -/
theorem expectedSarsa_expectation_vector {σ : Type} (sarsaUpdate : σ → Vec → Vec → ℚ → σ)
    (actions : List Action) (piF : Action → ℚ) (phiF : Action → Vec) (dim : ℕ)
    (sarsa : σ) (xa0 : Vec) (b : Action) (r : ℚ)
    (hlen : ∀ a ∈ actions, (phiF a).length = dim) :
    (∀ res, ExpectedSarsaControl.step sarsaUpdate actions piF phiF dim sarsa xa0 b r
        = some res →
      res.sarsa = sarsaUpdate sarsa xa0 (specExpectation actions piF phiF dim) r) ∧
    (b ∈ actions → piF b = 0 →
      ExpectedSarsaControl.step sarsaUpdate actions piF phiF dim sarsa xa0 b r = none) := by
  constructor
  · intro res h
    rw [ExpectedSarsaControl.step] at h
    cases hb : ExpectedSarsaControl.phiBarLoop piF phiF b actions (zeroVec dim) with
    | none => rw [hb] at h; cases h
    | some phiBar =>
      rw [hb] at h
      cases h
      have hspec := phiBarLoop_some_eq piF phiF b dim actions (zeroVec dim)
        (by simp [zeroVec]) hlen phiBar hb
      show sarsaUpdate sarsa xa0 phiBar r = _
      rw [hspec, vadd_zero_left _ dim (length_specExpectation actions piF phiF dim hlen)]
  · intro hmem h0
    rw [ExpectedSarsaControl.step,
      phiBarLoop_none_of_mem piF phiF b actions b hmem h0 rfl]

/-- C3 witness: the hypotheses of `expectedSarsa_expectation_vector` hold at a
concrete two-action instance. -/
theorem expectedSarsa_expectation_vector_witness :
    (∀ res, ExpectedSarsaControl.step esWitUpd esWitActions esWitPi esWitPhi 1 [] [5] ⟨1⟩ 3
        = some res →
      res.sarsa = esWitUpd [] [5] (specExpectation esWitActions esWitPi esWitPhi 1) 3) ∧
    ((⟨1⟩ : Action) ∈ esWitActions → esWitPi ⟨1⟩ = 0 →
      ExpectedSarsaControl.step esWitUpd esWitActions esWitPi esWitPhi 1 [] [5] ⟨1⟩ 3
        = none) :=
  expectedSarsa_expectation_vector esWitUpd esWitActions esWitPi esWitPhi 1 [] [5] ⟨1⟩ 3
    (by decide)

/-- C10: a successful `ExpectedSarsaControl::step` caches the feature vector
of the single sampled next action in `xa_t` (not the expectation vector), and
returns that action. -/
theorem expectedSarsa_caches_sampled_features {σ : Type}
    (sarsaUpdate : σ → Vec → Vec → ℚ → σ) (actions : List Action) (piF : Action → ℚ)
    (phiF : Action → Vec) (dim : ℕ) (sarsa : σ) (xa0 : Vec) (b : Action) (r : ℚ) :
    ∀ res, ExpectedSarsaControl.step sarsaUpdate actions piF phiF dim sarsa xa0 b r
        = some res →
      res.xa_t = phiF b ∧ res.a_tp1 = b := by
  intro res h
  rw [ExpectedSarsaControl.step] at h
  cases hb : ExpectedSarsaControl.phiBarLoop piF phiF b actions (zeroVec dim) with
  | none => rw [hb] at h; cases h
  | some phiBar =>
    rw [hb] at h
    cases h
    exact ⟨rfl, rfl⟩

/-- C10 witness: at a concrete instance the step succeeds and the cached
features are the sampled action's. -/
theorem expectedSarsa_caches_sampled_features_witness :
    (⟨[0], [2], ⟨0⟩⟩ : ESStepResult Vec).xa_t = esWitPhi ⟨0⟩ ∧
    (⟨[0], [2], ⟨0⟩⟩ : ESStepResult Vec).a_tp1 = ⟨0⟩ :=
  expectedSarsa_caches_sampled_features esWitUpd esWitActionsB esWitPi esWitPhi 1 [] [5] ⟨0⟩ 3
    ⟨[0], [2], ⟨0⟩⟩ (by decide)

/-- C6: in every `AverageRewardActorCritic::updateCritic` call the critic is
updated with `r_tp1 - averageReward` (exactly the plain `ActorCritic` critic
update at the baseline-shifted reward), afterwards `averageReward` moves by
`α_r · delta_t` for the `delta_t` that call returned, and the rest of the step
is the shared `AbstractActorCritic::step` template, identical for both
variants: the critic update's `delta_t` drives the same actor update. -/
theorem averageReward_baseline_law :
    ∀ (κ : Type) (criticUpdate : κ → Vec → Vec → ℚ → κ × ℚ) (s : ARACState κ)
      (phi_t phi_tp1 : Vec) (r : ℚ),
      (AverageRewardActorCritic.updateCritic criticUpdate s phi_t phi_tp1 r).2
          = (ActorCritic.updateCritic criticUpdate s.critic phi_t phi_tp1
              (r - s.averageReward)).2 ∧
      (AverageRewardActorCritic.updateCritic criticUpdate s phi_t phi_tp1 r).1.critic
          = (ActorCritic.updateCritic criticUpdate s.critic phi_t phi_tp1
              (r - s.averageReward)).1 ∧
      (AverageRewardActorCritic.updateCritic criticUpdate s phi_t phi_tp1 r).1.averageReward
          = s.averageReward
            + s.alpha_r * (AverageRewardActorCritic.updateCritic criticUpdate s phi_t phi_tp1 r).2 ∧
      (AverageRewardActorCritic.updateCritic criticUpdate s phi_t phi_tp1 r).1.alpha_r
          = s.alpha_r ∧
      (∀ (α : Type) (updateActor : α → ℚ → α) (act : α),
        AbstractActorCritic.step
            (fun c r0 => AverageRewardActorCritic.updateCritic criticUpdate c phi_t phi_tp1 r0)
            updateActor s act r
          = ((AverageRewardActorCritic.updateCritic criticUpdate s phi_t phi_tp1 r).1,
             updateActor act
               (AverageRewardActorCritic.updateCritic criticUpdate s phi_t phi_tp1 r).2)) ∧
      (∀ (α : Type) (updateActor : α → ℚ → α) (act : α) (c : κ),
        AbstractActorCritic.step
            (fun c0 r0 => ActorCritic.updateCritic criticUpdate c0 phi_t phi_tp1 r0)
            updateActor c act r
          = ((ActorCritic.updateCritic criticUpdate c phi_t phi_tp1 r).1,
             updateActor act (ActorCritic.updateCritic criticUpdate c phi_t phi_tp1 r).2)) :=
  fun _ _ _ _ _ _ =>
    ⟨rfl, rfl, rfl, rfl, fun _ _ _ => rfl, fun _ _ _ _ => rfl⟩

/-- C7: composite learners persist the critic under `name + ".critic"` and the
actor under `name + ".actor"`, the derived names cascade recursively through a
composite sub-component, and single-component learners persist directly under
`name`; `resurrect` uses the same names. -/
theorem persistence_naming_discipline :
    (∀ (cp ap : String → List String) (f : String),
      OffPAC.persist cp ap f = cp (f ++ ".critic") ++ ap (f ++ ".actor")) ∧
    (∀ (cp ap : String → List String) (f : String),
      OffPAC.resurrect cp ap f = cp (f ++ ".critic") ++ ap (f ++ ".actor")) ∧
    (∀ (cp ap : String → List String) (f : String),
      AbstractActorCritic.persist cp ap f = cp (f ++ ".critic") ++ ap (f ++ ".actor")) ∧
    (∀ (cp ap : String → List String) (f : String),
      AbstractActorCritic.resurrect cp ap f = cp (f ++ ".critic") ++ ap (f ++ ".actor")) ∧
    (∀ f : String, OffPAC.persist leafPersist leafPersist f
        = [f ++ ".critic", f ++ ".actor"]) ∧
    (∀ f : String, AbstractActorCritic.persist leafPersist leafPersist f
        = [f ++ ".critic", f ++ ".actor"]) ∧
    (∀ (c1 a1 ap : String → List String) (f : String),
      OffPAC.persist (AbstractActorCritic.persist c1 a1) ap f
        = c1 (f ++ ".critic" ++ ".critic") ++ a1 (f ++ ".critic" ++ ".actor")
            ++ ap (f ++ ".actor")) ∧
    (∀ f : String, SarsaControl.persist leafPersist f = [f]) ∧
    (∀ f : String, SarsaControl.resurrect leafPersist f = [f]) ∧
    (∀ f : String, GreedyGQ.persist leafPersist f = [f]) ∧
    (∀ f : String, GreedyGQ.resurrect leafPersist f = [f]) ∧
    (∀ f : String, Actor.persist leafPersist f = [f]) ∧
    (∀ f : String, Actor.resurrect leafPersist f = [f]) :=
  ⟨fun _ _ _ => rfl, fun _ _ _ => rfl, fun _ _ _ => rfl, fun _ _ _ => rfl,
   fun _ => rfl, fun _ => rfl, fun _ _ _ _ => rfl, fun _ => rfl, fun _ => rfl,
   fun _ => rfl, fun _ => rfl, fun _ => rfl, fun _ => rfl⟩

/-- C8: for every `ActorLambda` and `ActorLambdaOffPolicy` instance, after
`reset()` and after `initialize()` all eligibility-trace vectors are exactly
zero. -/
theorem traces_zero_after_init_and_reset :
    (∀ s : ALState, (ActorLambda.initializeState s).e.all isZeroVec = true) ∧
    (∀ s : ALState, (ActorLambda.reset s).e.all isZeroVec = true) ∧
    (∀ s : ALOPState, (ActorLambdaOffPolicy.initializeState s).e.all isZeroVec = true) ∧
    (∀ s : ALOPState, (ActorLambdaOffPolicy.reset s).e.all isZeroVec = true) :=
  ⟨fun s => all_isZeroVec_clear s.e, fun s => all_isZeroVec_clear s.e,
   fun s => all_isZeroVec_clear s.e, fun s => all_isZeroVec_clear s.e⟩

/-- C4: one `ActorLambdaOffPolicy::update` call on an initialized learner
turns each trace block into `ρ_t · (γ_t·λ · e_i + gradLog_i)` — decay, add
the gradient-of-log, scale by `ρ_t` in place — and then moves each parameter
block by `α_u · delta_t` along the new trace. -/
theorem actorLambdaOffPolicy_update_law (s : ALOPState) (gradLog : List Vec)
    (rho_t gamma_t delta_t : ℚ) (hinit : s.initialized = true) :
    ∃ s', ActorLambdaOffPolicy.update s gradLog rho_t gamma_t delta_t = some s' ∧
      (∀ (i : ℕ) ei gi, s.e[i]? = some ei → gradLog[i]? = some gi →
        s'.e[i]? = some (multiplyToSelf rho_t (Trace.update (gamma_t * s.lambda) gi ei))) ∧
      (∀ (i : ℕ) ei gi ui, s.e[i]? = some ei → gradLog[i]? = some gi → s.u[i]? = some ui →
        s'.u[i]? = some (addToSelf (s.alpha_u * delta_t)
          (multiplyToSelf rho_t (Trace.update (gamma_t * s.lambda) gi ei)) ui)) := by
  have hne : ¬ s.initialized = false := by rw [hinit]; simp
  rw [ActorLambdaOffPolicy.update, if_neg hne]
  refine ⟨_, rfl, ?_, ?_⟩
  · intro i ei gi hei hgi
    dsimp only
    simp only [List.getElem?_zipWith, hei, hgi]
  · intro i ei gi ui hei hgi hui
    dsimp only
    simp only [List.getElem?_zipWith, hei, hgi, hui]

/-- C4 witness: the update law applied to a concrete initialized learner with
one parameter block. -/
theorem actorLambdaOffPolicy_update_law_witness :
    ∃ s', ActorLambdaOffPolicy.update alopWitnessState [[3]] 2 1 1 = some s' ∧
      (∀ (i : ℕ) ei gi, alopWitnessState.e[i]? = some ei → ([[3]] : List Vec)[i]? = some gi →
        s'.e[i]? = some (multiplyToSelf 2 (Trace.update (1 * alopWitnessState.lambda) gi ei))) ∧
      (∀ (i : ℕ) ei gi ui, alopWitnessState.e[i]? = some ei → ([[3]] : List Vec)[i]? = some gi →
          alopWitnessState.u[i]? = some ui →
        s'.u[i]? = some (addToSelf (alopWitnessState.alpha_u * 1)
          (multiplyToSelf 2 (Trace.update (1 * alopWitnessState.lambda) gi ei)) ui)) :=
  actorLambdaOffPolicy_update_law alopWitnessState [[3]] 2 1 1 rfl

/-- C5: one `ActorNatural::update` call on an initialized learner first
computes the advantage estimate as the sum over blocks of
`gradLog_i · w_i`, then moves each advantage-weight block by
`α_v · (delta − advantage)` along `gradLog_i`, and moves each policy-parameter
block by `α_u` along the updated `w_i` (not along the raw gradient). -/
theorem actorNatural_update_law (s : ANState) (gradLog : List Vec) (delta : ℚ)
    (hinit : s.initialized = true) :
    ∃ s', ActorNatural.update s gradLog delta = some s' ∧
      advantageValue gradLog s.w = (List.zipWith dot gradLog s.w).sum ∧
      (∀ (i : ℕ) wi gi, s.w[i]? = some wi → gradLog[i]? = some gi →
        s'.w[i]? = some (addToSelf (s.alpha_v * (delta - advantageValue gradLog s.w)) gi wi)) ∧
      (∀ (i : ℕ) wi gi ui, s.w[i]? = some wi → gradLog[i]? = some gi → s.u[i]? = some ui →
        s'.u[i]? = some (addToSelf s.alpha_u
          (addToSelf (s.alpha_v * (delta - advantageValue gradLog s.w)) gi wi) ui)) := by
  have hne : ¬ s.initialized = false := by rw [hinit]; simp
  rw [ActorNatural.update, if_neg hne]
  refine ⟨_, rfl, rfl, ?_, ?_⟩
  · intro i wi gi hwi hgi
    dsimp only
    simp only [List.getElem?_zipWith, hwi, hgi]
  · intro i wi gi ui hwi hgi hui
    dsimp only
    simp only [List.getElem?_zipWith, hwi, hgi, hui]

/-- C5 witness: the update law applied to a concrete initialized natural
actor with one parameter block. -/
theorem actorNatural_update_law_witness :
    ∃ s', ActorNatural.update anWitnessState [[3]] 1 = some s' ∧
      advantageValue [[3]] anWitnessState.w = (List.zipWith dot [[3]] anWitnessState.w).sum ∧
      (∀ (i : ℕ) wi gi, anWitnessState.w[i]? = some wi → ([[3]] : List Vec)[i]? = some gi →
        s'.w[i]? = some (addToSelf
          (anWitnessState.alpha_v * (1 - advantageValue [[3]] anWitnessState.w)) gi wi)) ∧
      (∀ (i : ℕ) wi gi ui, anWitnessState.w[i]? = some wi → ([[3]] : List Vec)[i]? = some gi →
          anWitnessState.u[i]? = some ui →
        s'.u[i]? = some (addToSelf anWitnessState.alpha_u
          (addToSelf (anWitnessState.alpha_v * (1 - advantageValue [[3]] anWitnessState.w))
            gi wi) ui)) :=
  actorNatural_update_law anWitnessState [[3]] 1 rfl

/-- C9 (amended): `ActorLambda` checks the trace/parameter dimension match at
construction and fails on a mismatch; `ActorLambdaOffPolicy`'s constructor
performs no such check and always succeeds; and every actor `update` on a
learner that has not been initialized aborts instead of computing. -/
theorem actor_construction_and_init_checks :
    (∀ (alpha_u gamma lambda : ℚ) (u e : List Vec), e.length ≠ u.length →
      ActorLambda.construct alpha_u gamma lambda u e = none) ∧
    (∀ (alpha_u gamma lambda : ℚ) (u e : List Vec), e.length = u.length →
      ∃ s, ActorLambda.construct alpha_u gamma lambda u e = some s ∧
        s.initialized = false) ∧
    (∀ (alpha_u gamma_t lambda : ℚ) (u e : List Vec),
      ∃ s, ActorLambdaOffPolicy.construct alpha_u gamma_t lambda u e = some s ∧
        s.initialized = false ∧ s.u = u ∧ s.e = e) ∧
    (∀ (s : ALState) (gradLog : List Vec) (delta : ℚ), s.initialized = false →
      ActorLambda.update s gradLog delta = none) ∧
    (∀ (s : ALOPState) (gradLog : List Vec) (rho_t gamma_t delta_t : ℚ),
      s.initialized = false →
      ActorLambdaOffPolicy.update s gradLog rho_t gamma_t delta_t = none) ∧
    (∀ (s : ANState) (gradLog : List Vec) (delta : ℚ), s.initialized = false →
      ActorNatural.update s gradLog delta = none) := by
  refine ⟨?_, ?_, ?_, ?_, ?_, ?_⟩
  · intro au g l u e h
    rw [ActorLambda.construct, if_neg h]
  · intro au g l u e h
    exact ⟨_, by rw [ActorLambda.construct, if_pos h], rfl⟩
  · intro au g l u e
    exact ⟨_, rfl, rfl, rfl, rfl⟩
  · intro s gradLog delta h
    rw [ActorLambda.update, if_pos h]
  · intro s gradLog rho_t gamma_t delta_t h
    rw [ActorLambdaOffPolicy.update, if_pos h]
  · intro s gradLog delta h
    rw [ActorNatural.update, if_pos h]

/-- C9 counterexample: `ActorLambdaOffPolicy`'s constructor does not detect a
trace/parameter dimension mismatch — with one trace block against two
parameter blocks, construction still succeeds. -/
theorem alop_no_dimension_check_cx :
    (∃ s, ActorLambdaOffPolicy.construct 1 1 1 [[1], [2]] [[1]] = some s) ∧
    ([[(1 : ℚ)]] : List Vec).length ≠ ([[(1 : ℚ)], [2]] : List Vec).length :=
  ⟨⟨_, rfl⟩, by decide⟩

/-- C1 (amended): `OffPAC::step` checks `ρ_t` with `Boundedness::checkValue`
immediately after computing it and fails before touching the critic when the
check rejects it; it checks `δ_t` immediately after the critic update and
fails before touching the actor when that check rejects it; a step that
completes carries a `ρ_t` and `δ_t` both accepted by the check.
`GreedyGQ::step`, by contrast, performs no boundedness check at all: it
always completes, handing whatever `computeRho` produced to `gq->update`. -/
theorem offPAC_checks_bounds_greedyGQ_does_not :
    (∀ (κ α : Type) (criticUpdate : κ → Vec → Vec → D → ℚ → ℚ → ℚ → κ × D)
        (actorUpdate : α → Action → D → ℚ → D → α) (s : OffPACState κ α)
        (aPi bPi : ℚ) (p1 p2 : Vec) (gamma_t : ℚ) (a_t : Action) (r z : ℚ),
      (Boundedness.checkValue (ddiv aPi bPi) = false →
        OffPAC.step criticUpdate actorUpdate s aPi bPi p1 p2 gamma_t a_t r z
          = Except.error Fault.rhoUnbounded) ∧
      (Boundedness.checkValue (ddiv aPi bPi) = true →
        Boundedness.checkValue
            (criticUpdate s.critic p1 p2 (ddiv aPi bPi) gamma_t r z).2 = false →
        OffPAC.step criticUpdate actorUpdate s aPi bPi p1 p2 gamma_t a_t r z
          = Except.error Fault.deltaUnbounded) ∧
      (∀ s', OffPAC.step criticUpdate actorUpdate s aPi bPi p1 p2 gamma_t a_t r z
          = Except.ok s' →
        Boundedness.checkValue s'.rho_t = true ∧
        Boundedness.checkValue s'.delta_t = true ∧
        s'.rho_t = ddiv aPi bPi ∧
        s'.delta_t = (criticUpdate s.critic p1 p2 (ddiv aPi bPi) gamma_t r z).2 ∧
        s'.critic = (criticUpdate s.critic p1 p2 (ddiv aPi bPi) gamma_t r z).1 ∧
        s'.actor = actorUpdate s.actor a_t (ddiv aPi bPi) gamma_t
          (criticUpdate s.critic p1 p2 (ddiv aPi bPi) gamma_t r z).2)) ∧
    (∀ (κ : Type) (gqUpdate : κ → Vec → Vec → D → ℚ → ℚ → κ) (s : GreedyGQState κ)
        (actions : List Action) (targetPiNext : Action → ℚ) (xasNext : Action → Vec)
        (dim : ℕ) (a_t a_tp1 : Action) (r z : ℚ),
      ∃ s', GreedyGQ.step gqUpdate s actions targetPiNext xasNext dim a_t a_tp1 r z
          = Except.ok s' ∧ s'.rho_t = GreedyGQ.computeRho s a_t) := by
  constructor
  · intro κ α criticUpdate actorUpdate s aPi bPi p1 p2 gamma_t a_t r z
    refine ⟨?_, ?_, ?_⟩
    · intro h
      simp only [OffPAC.step]
      rw [if_pos h]
    · intro h1 h2
      simp only [OffPAC.step]
      rw [if_neg (by simp [h1]), if_pos h2]
    · intro s' h
      simp only [OffPAC.step] at h
      by_cases h1 : Boundedness.checkValue (ddiv aPi bPi) = false
      · rw [if_pos h1] at h; cases h
      · rw [if_neg h1] at h
        by_cases h2 : Boundedness.checkValue
            (criticUpdate s.critic p1 p2 (ddiv aPi bPi) gamma_t r z).2 = false
        · rw [if_pos h2] at h; cases h
        · rw [if_neg h2] at h
          cases h
          exact ⟨by simpa using h1, by simpa using h2, rfl, rfl, rfl, rfl⟩
  · intro κ gqUpdate s actions targetPiNext xasNext dim a_t a_tp1 r z
    exact ⟨_, rfl, rfl⟩

/-- C1 witness: `OffPAC::step` at a concrete learner where the behavior
probability of the executed action is 0, so `ρ_t` is infinite: the step fails
with the `ρ` boundedness fault. -/
theorem offPAC_checks_bounds_witness :
    OffPAC.step offPacWitCu offPacWitAu offPacWitState 1 0 [] [] 0 ⟨0⟩ 0 0
      = Except.error Fault.rhoUnbounded :=
  ((offPAC_checks_bounds_greedyGQ_does_not.1 Unit Unit offPacWitCu offPacWitAu
    offPacWitState 1 0 [] [] 0 ⟨0⟩ 0 0).1 (by decide))

/-- C1 counterexample: in `GreedyGQ::step` the computed importance ratio is
infinite — `Boundedness::checkValue` would reject it — yet the step does not
fail: it completes and hands the infinite ratio to `gq->update`, which here
records it (standing for the value reaching the predictor's parameters). -/
theorem greedyGQ_unchecked_rho_cx :
    Boundedness.checkValue (GreedyGQ.computeRho greedyGQcx ⟨0⟩) = false ∧
    ∃ s', GreedyGQ.step (fun _ _ _ rho _ _ => rho) greedyGQcx [] (fun _ => 1)
        (fun _ => [1]) 1 ⟨0⟩ ⟨0⟩ 0 0 = Except.ok s' ∧
      s'.rho_t = D.posInf ∧ s'.gq = D.posInf :=
  ⟨by decide, ⟨_, rfl, by decide, by decide⟩⟩

end RLLib
